import Mathlib

set_option maxRecDepth 8000

/-!
Shallow embedding of the httpdis request-dispatch engine
(src/httpdis/httpdis.py, a Python 2 code base per setup.py
`python_requires = '<3'`).  Pure functions of the source are translated
into executable Lean definitions; external collaborators (base64, crypt,
the MIME classifier, the rfc6266 helpers, the email date parser) are
modelled as oracle parameters. Observable side effects which the claims
talk about (reading the request body, touching the filesystem, invoking
the registered handler) are returned as an explicit event list.
-/

namespace Httpdis

/-! ### Python string helpers (Python 2 semantics) -/

/-- str.startswith(pre) (structural, so that concrete instances evaluate). -/
def strStartsWith (s pre : String) : Bool := pre.data.isPrefixOf s.data

/-- str.endswith(suf) -/
def strEndsWith (s suf : String) : Bool := suf.data.reverse.isPrefixOf s.data.reverse

def splitOnCharAux (c : Char) : List Char → List Char → List String
  | [], acc => [String.mk acc.reverse]
  | x :: t, acc =>
    if x = c then String.mk acc.reverse :: splitOnCharAux c t []
    else splitOnCharAux c t (x :: acc)

/-- str.split(c) for a one-character separator. -/
def splitOnChar (c : Char) (s : String) : List String := splitOnCharAux c s.data []

/-- sep.join(parts) -/
def joinSep (sep : String) : List String → String
  | [] => ""
  | [x] => x
  | x :: y :: t => x ++ sep ++ joinSep sep (y :: t)

/-- Python truthiness of an optional string (None and "" are falsy). -/
def truthy : Option String → Bool
  | none => false
  | some s => s ≠ ""

/-- `a or b` for an optional string with a string default. -/
def pyOr (a : Option String) (b : String) : String :=
  match a with
  | some s => if s = "" then b else s
  | none => b

/-- str.capitalize, as applied by urllib's Request.add_header to header keys. -/
def pyCapitalize (s : String) : String :=
  match s.data with
  | [] => ""
  | c :: cs => String.mk (c.toUpper :: cs.map Char.toLower)

/-- str.lower -/
def lowerStr (s : String) : String := String.mk (s.data.map Char.toLower)

/-- str.rstrip() -/
def rstripStr (s : String) : String :=
  String.mk ((s.data.reverse.dropWhile Char.isWhitespace).reverse)

/-- str.strip() -/
def stripWS (s : String) : String :=
  String.mk (((s.data.dropWhile Char.isWhitespace).reverse.dropWhile Char.isWhitespace).reverse)

/-- str.strip('/\\'), as used on the url path in static_file. -/
def stripSlashes (s : String) : String :=
  let p := fun c => c == '/' || c == '\\'
  String.mk (((s.data.dropWhile p).reverse.dropWhile p).reverse)

/-- Helper for str.split(sep, 1) on a character separator. -/
def splitOnceAux (sep : Char) : List Char → Option (List Char × List Char)
  | [] => none
  | c :: t =>
    if c = sep then some ([], t)
    else
      match splitOnceAux sep t with
      | some (a, b) => some (c :: a, b)
      | none => none

/-- str.split(sep, 1): parts before/after the first separator; none if absent. -/
def splitOnce (sep : Char) (s : String) : Option (String × String) :=
  (splitOnceAux sep s.data).map (fun p => (String.mk p.1, String.mk p.2))

/-- str.partition(':') projected to (before, after); after = "" when no colon. -/
def partitionColon (s : String) : String × String :=
  match splitOnce ':' s with
  | some (a, b) => (a, b)
  | none => (s, "")

def digitsToNat (l : List Char) : Nat :=
  l.foldl (fun acc c => acc * 10 + (c.toNat - 48)) 0

/-- int(str) in Python: optional surrounding whitespace, optional sign, digits;
    none models the ValueError. -/
def pyInt (s : String) : Option Int :=
  let negDs : Bool × List Char :=
    match (stripWS s).data with
    | '-' :: rest => (true, rest)
    | '+' :: rest => (false, rest)
    | l => (false, l)
  if negDs.2 ≠ [] ∧ negDs.2.all Char.isDigit then
    some (if negDs.1 then -(digitsToNat negDs.2 : Int) else (digitsToNat negDs.2 : Int))
  else none

/-- Association-list lookup with string keys (Python dict .get). -/
def lookupA {α : Type} (k : String) : List (String × α) → Option α
  | [] => none
  | (k', v) :: t => if k' = k then some v else lookupA k t

/-! ### os.path model (POSIX; the working directory is modelled as "/") -/

def normParts (isAbs : Bool) : List String → List String → List String
  | stack, [] => stack.reverse
  | stack, p :: rest =>
    if p = "" ∨ p = "." then normParts isAbs stack rest
    else if p = ".." then
      match stack with
      | [] => if isAbs then normParts isAbs [] rest else normParts isAbs [".."] rest
      | q :: qs =>
        if q = ".." then normParts isAbs (".." :: q :: qs) rest
        else normParts isAbs qs rest
    else normParts isAbs (p :: stack) rest

/-- posixpath.normpath -/
def normpath (p : String) : String :=
  let isAbs := strStartsWith p "/"
  let pref :=
    if isAbs = false then ""
    else if strStartsWith p "//" ∧ strStartsWith p "///" = false then "//" else "/"
  let out := pref ++ joinSep "/" (normParts isAbs [] (splitOnChar '/' p))
  if out = "" then "." else out

/-- os.path.abspath, with the process working directory modelled as "/". -/
def abspath (p : String) : String :=
  normpath (if strStartsWith p "/" then p else "/" ++ p)

/-- posixpath.join for two components. -/
def pjoin (a b : String) : String :=
  if strStartsWith b "/" then b
  else if a = "" ∨ strEndsWith a "/" then a ++ b
  else a ++ "/" ++ b

/-- os.path.basename -/
def basenameStr (p : String) : String :=
  (((splitOnChar '/' p)).getLast?).getD ""

/-! ### Nested parameter dictionaries (the Python dicts built by
querylist_to_dict; keys are either str or int, exactly as in Python where
the array-append indices are ints while bracket segments stay strings). -/

inductive QKey where
  | s (v : String)
  | i (n : Nat)
deriving DecidableEq

inductive QVal where
  | v (x : Option String)
  | d (m : List (QKey × QVal))

def dmem (k : QKey) : List (QKey × QVal) → Bool
  | [] => false
  | (k', _) :: t => k' = k || dmem k t

def dlookup (k : QKey) : List (QKey × QVal) → Option QVal
  | [] => none
  | (k', x) :: t => if k' = k then some x else dlookup k t

/-- Python dict assignment: update in place keeps the position, otherwise
    the pair is appended. -/
def dinsert (k : QKey) (x : QVal) : List (QKey × QVal) → List (QKey × QVal)
  | [] => [(k, x)]
  | (k', x') :: t => if k' = k then (k, x) :: t else (k', x') :: dinsert k x t

def ddelete (k : QKey) : List (QKey × QVal) → List (QKey × QVal)
  | [] => []
  | (k', x') :: t => if k' = k then t else (k', x') :: ddelete k t

/-- re.findall of bracket groups: contents of each `[...]` run, where the
    group body is any run of non-] characters. -/
def findGroupsAux : List Char → Option (List Char) → List String
  | [], _ => []
  | c :: rest, none =>
    if c = '[' then findGroupsAux rest (some [])
    else findGroupsAux rest none
  | c :: rest, some acc =>
    if c = ']' then String.mk acc :: findGroupsAux rest none
    else findGroupsAux rest (some (acc ++ [c]))

def findGroups (s : String) : List String := findGroupsAux s.data none

/-- First integer index ≥ j that is not a key of the dict (the
    `while j in ref: j += 1` scan; the fuel suffices by pigeonhole). -/
def freshIdxAux (d : List (QKey × QVal)) : Nat → Nat → Nat
  | 0, j => j
  | fuel + 1, j => if dmem (.i j) d then freshIdxAux d fuel (j + 1) else j

def freshIdx (d : List (QKey × QVal)) (j : Nat) : Nat :=
  freshIdxAux d (d.length + 1) j

/-- The `for i, k in enumerate(matched)` walk of querylist_to_dict: one
    bracket-path assignment, threading the append index j across levels. -/
def assignPath (value : Option String) :
    List (QKey × QVal) → List String → Nat → List (QKey × QVal)
  | d, [], _ => d
  | d, [k], j =>
    let key := if k = "" then QKey.i (freshIdx d j) else QKey.s k
    dinsert key (.v value) d
  | d, k :: k2 :: rest, j =>
    let kj : QKey × Nat :=
      if k = "" then (QKey.i (freshIdx d j), freshIdx d j) else (QKey.s k, j)
    let sub := match dlookup kj.1 d with
               | some (.d m) => m
               | _ => []
    dinsert kj.1 (.d (assignPath value sub (k2 :: rest) kj.2)) d

/-- One (key, value) pair of the querylist_to_dict loop body. -/
def q2dStep (ret : List (QKey × QVal)) (x : String × Option String) :
    List (QKey × QVal) :=
  let k0 := x.1
  let value := x.2
  if k0 = "" ∨ k0.data.contains ']' = false then dinsert (.s k0) (.v value) ret
  else
    match splitOnceAux '[' k0.data with
    | none => dinsert (.s k0) (.v value) ret
    | some (pre, suf) =>
      let key := QKey.s (String.mk pre)
      let ret1 := if dmem key ret then ret else dinsert key (.d []) ret
      let matched := findGroups (String.mk ('[' :: suf))
      if matched = [] then dinsert key (.v value) ret1
      else
        let sub := match dlookup key ret1 with
                   | some (.d m) => m
                   | _ => []
        dinsert key (.d (assignPath value sub matched 0)) ret1

/-- HttpReqHandler.querylist_to_dict -/
def querylist_to_dict (query : List (String × Option String)) :
    List (QKey × QVal) :=
  ddelete (.s "____ts") (query.foldl q2dStep [])

/-! ### HttpResponse (urllib Request based value object) and end_response -/

/-- HttpResponse: code, body, headers (stored via add_header, which
    capitalizes keys like urllib's Request), message, send_body flag. -/
structure Resp where
  code : Nat := 200
  data : String := ""
  headers : List (String × String) := []
  message : Option String := none
  send_body : Bool := true
deriving DecidableEq

/-- Python dict assignment on a string-keyed header dict. -/
def hinsert (k v : String) : List (String × String) → List (String × String)
  | [] => [(k, v)]
  | (k', v') :: t => if k' = k then (k, v) :: t else (k', v') :: hinsert k v t

def Resp.add_header (r : Resp) (k v : String) : Resp :=
  { r with headers := hinsert (pyCapitalize k) v r.headers }

/-- urllib Request.get_header: plain dict get, no key normalisation. -/
def Resp.get_header (r : Resp) (k : String) : Option String :=
  lookupA k r.headers

def Resp.set_code (r : Resp) (c : Nat) : Resp := { r with code := c }

def Resp.set_send_body (r : Resp) (b : Bool) : Resp := { r with send_body := b }

def Resp.add_data (r : Resp) (d : String) : Resp := { r with data := d }

/-- The module constant _END_EXC_HEADERS.  The source tuple reads
    ('Cache-control', 'Connection', 'Content-type' 'Content-length' 'Pragma',
    'Server'): adjacent string literals concatenate, fusing three names
    into one token. -/
def _END_EXC_HEADERS : List String :=
  ["Cache-control",
   "Connection",
   "Content-type" ++ "Content-length" ++ "Pragma",
   "Server"]

/-- Ambient data used by send_response/end_response: the request method,
    the matched command's content type, and the Server/Date header values. -/
structure SendCtx where
  command : String := "GET"
  cmdContentType : Option String := none
  serverVersion : String := "srv"
  dateString : String := "date"

/-- The body/Content-Length computation at the top of end_response:
    the body is sent unless send_body is cleared, the method is HEAD,
    the code is informational, or the code is 204/304. -/
def responseBodyClen (ctx : SendCtx) (response : Resp) : String × Nat :=
  if response.send_body ∧ ctx.command ≠ "HEAD" ∧ 200 ≤ response.code
     ∧ response.code ≠ 204 ∧ response.code ≠ 304 then
    (response.data, response.data.length)
  else ("", 0)

/-- The fixed header block of end_response: Server and Date (from
    send_response) then Cache-Control, Pragma, Connection, Content-Type and
    Content-Length, caller-set values winning over the defaults. -/
def responseFixedHeaders (ctx : SendCtx) (response : Resp) (clen : Nat) :
    List (String × String) :=
  [("Server", ctx.serverVersion),
   ("Date", ctx.dateString),
   ("Cache-Control", pyOr (response.get_header "Cache-control") "no-cache"),
   ("Pragma", pyOr (response.get_header "Pragma") "no-cache"),
   ("Connection", pyOr (response.get_header "Connection") "close"),
   ("Content-Type",
    pyOr (response.get_header "Content-type") (pyOr ctx.cmdContentType "text/plain")),
   ("Content-Length", toString clen)]

/-- The trailing loop of end_response: every stored header whose key is not
    in _END_EXC_HEADERS is sent (again). -/
def responseTrailingHeaders (response : Resp) : List (String × String) :=
  response.headers.filter (fun p => p.1 ∉ _END_EXC_HEADERS)

/-- HttpReqHandler.end_response, modelled as the ordered list of headers put
    on the wire (status line elided) together with the body bytes written. -/
def end_response (ctx : SendCtx) (response : Resp) :
    List (String × String) × String :=
  let dataClen := responseBodyClen ctx response
  (responseFixedHeaders ctx response dataClen.2 ++ responseTrailingHeaders response,
   if dataClen.2 ≠ 0 then dataClen.1 else "")

/-- Number of emitted headers whose name matches case-insensitively. -/
def countHeaderCI (name : String) (hs : List (String × String)) : Nat :=
  ((hs.map Prod.fst).filter (fun k => lowerStr k = name)).length

/-! ### Handler return values and response_dumps -/

/-- Python values a handler may return (besides an HttpResponse). -/
inductive PyVal where
  | pybool (b : Bool)
  | pynone
  | pyint (n : Int)
  | pystr (s : String)
  /-- an object, with: whether its class defines its own str-conversion,
      its str() form, and its repr() form -/
  | pyobj (hasStr : Bool) (strForm reprForm : String)
deriving DecidableEq

/-- Models the external sonicprobe helpers.is_scalar predicate: true for
    strings and numbers (bools are ints in Python). -/
def is_scalar : PyVal → Bool
  | .pystr _ => true
  | .pyint _ => true
  | .pybool _ => true
  | _ => false

/-- "%s" % data -/
def pyStrFormat : PyVal → String
  | .pybool b => if b then "True" else "False"
  | .pynone => "None"
  | .pyint n => toString n
  | .pystr s => s
  | .pyobj hasStr s r => if hasStr then s else r

/-- repr(data) -/
def pyRepr : PyVal → String
  | .pybool b => if b then "True" else "False"
  | .pynone => "None"
  | .pyint n => toString n
  | .pystr s => "'" ++ s ++ "'"
  | .pyobj _ _ r => r

/-- HttpReqHandler.response_dumps (the charset argument is unused in the
    source as well). -/
def response_dumps (data : PyVal) (charset : String) : String :=
  let data := match data with
              | .pybool b => .pyint (if b then 1 else 0)
              | d => d
  if data = .pynone then ""
  else if is_scalar data then pyStrFormat data
  else
    match data with
    | .pyobj true s _ => s
    | d => pyRepr d

/-! ### Authentication gate (HttpAuthentication) -/

/-- Oracles for the external primitives used by valid_authorization:
    base64 decoding (none models the decode exception), crypt(passwd, salt),
    and the base64 of the SHA1 digest of a password. -/
structure AuthEnv where
  b64decode : String → Option String
  cryptFn : String → String → String
  sha1b64 : String → String

/-- The HttpAuthentication instance state: the credential store and the
    last recorded user/password attempt. -/
structure AuthState where
  users : List (String × String)
  user : Option String := none
  passwd : Option String := none

/-- HttpAuthentication.valid_authorization.  The error value models a
    Python exception escaping (tuple-unpacking ValueError when the header
    has no space, or a base64 decode error). -/
def valid_authorization (env : AuthEnv) (st : AuthState) (authorization : String) :
    Except Unit (Bool × AuthState) :=
  match splitOnce ' ' authorization with
  | none => .error ()
  | some (kind, data) =>
    if stripWS kind ≠ "Basic" then .ok (false, st)
    else
      match env.b64decode (rstripStr data) with
      | none => .error ()
      | some decoded =>
        let up := partitionColon decoded
        let st1 := { st with user := some up.1, passwd := some up.2 }
        match lookupA up.1 st1.users with
        | none => .ok (false, st1)
        | some secret =>
          if secret = "" then .ok (false, st1)
          else if strStartsWith secret "{SHA}" then
            .ok (secret = "{SHA}" ++ env.sha1b64 up.2, st1)
          else
            .ok (secret = env.cryptFn up.2 (String.mk (secret.data.take 2)), st1)

/-- Request-level errors: a raised HttpReqError with its status code, or an
    uncaught Python exception (rendered as 500 by common_req). -/
inductive HErr where
  | req (code : Nat)
  | exn
deriving DecidableEq

/-- HttpReqHandler.authenticate: the gate is the module global _AUTH
    (none when no credential file is configured).  Returns the updated gate
    state, or the HttpReqError raised. -/
def authenticate (env : AuthEnv) (gate : Option AuthState)
    (headers : String → Option String) (auth_users : List String) :
    Except HErr (Option AuthState) :=
  match gate with
  | none => .ok none
  | some st =>
    match headers "Authorization" with
    | none => .error (.req 401)
    | some auth =>
      if auth = "" then .error (.req 401)
      else
        match valid_authorization env st auth with
        | .error _ => .error .exn
        | .ok (allowed, st') =>
          match st'.user, st'.passwd with
          | some u, some _ =>
            if auth_users ≠ [] ∧ u ∉ auth_users then .error (.req 401)
            else if allowed = false then .error (.req 401)
            else .ok (some st')
          | _, _ => .ok (some st')

/-! ### Observable side effects of request processing -/

inductive Event where
  | handlerCall
  | bodyRead (n : Int)
  | fsExists (p : String)
  | fsAccess (p : String)
  | fsStat (p : String)
  | fsRead (p : String)
deriving DecidableEq

/-- The filesystem as seen by static_file. -/
structure FS where
  fexists : String → Bool
  isfile : String → Bool
  readable : String → Bool
  mtimeInt : String → Int      -- int(os.stat(path).st_mtime)
  content : String → String

/-- Oracles for external collaborators: the magic MIME classifier, time
    formatting, the rfc6266 disposition helpers, the email.utils based
    parse_date (none models the caught parse failure), and whether the
    cgi/parse_qsl payload decoders succeed. -/
structure ExtEnv where
  sniff : String → String
  fmtTime : Int → String
  dispositionAttachmentSafe : String → Bool
  buildHeader : String → String
  parse_date : String → Option Int
  multipartOk : String → Bool
  parseQslOk : String → String → Bool

/-- Value returned by a registered handler. -/
inductive HRes where
  | resp (r : Resp)
  | val (v : PyVal)

/-- A registered Command (the fields the dispatcher consults).  A pattern
    name is modelled by its match function (returning the groupdict) and
    `rewrite` models name.sub(replacement, path). -/
structure Command where
  isPattern : Bool := false
  mtch : String → Option (List (String × Option String)) := fun _ => none
  handler? : Option (List (QKey × QVal) → HRes) := none
  static : Bool := false
  root : String := ""
  hasReplacement : Bool := false
  rewrite : String → String := id
  charset : Option String := none
  content_type : Option String := none
  to_auth : Bool := false
  auth_users : List String := []
  to_log : Bool := true

/-- Modelled from the spec: the config module (not under src/) provides
    DEFAULT_CHARSET; its exact value is immaterial to the claims. -/
def DEFAULT_CHARSET : String := "utf-8"

/-! ### Static responder -/

def containsSubAux (pat : List Char) : List Char → Bool
  | [] => pat.isPrefixOf []
  | c :: t => pat.isPrefixOf (c :: t) || containsSubAux pat t

/-- str.find(pat) != -1 -/
def containsSub (s pat : String) : Bool := containsSubAux pat.data s.data

/-- root = os.path.abspath(self._cmd.root) + os.sep -/
def staticRoot (cmd : Command) : String := abspath cmd.root ++ "/"

/-- filename = os.path.abspath(os.path.join(root, filename.strip('/\\')))
    with the optional pattern replacement applied first. -/
def resolvedStaticPath (cmd : Command) (urlpath : String) : String :=
  let filename0 := if cmd.isPattern ∧ cmd.hasReplacement then cmd.rewrite urlpath
                   else urlpath
  abspath (pjoin (staticRoot cmd) (stripSlashes filename0))

/-- The content-type / disposition / Last-Modified header block of
    static_file, applied to the caller-supplied response (or a fresh one). -/
def staticHeaders (fs : FS) (ext : ExtEnv) (cmd : Command)
    (res0 : Option Resp) (filename : String) : Resp :=
  let mimetype0 : Option String :=
    if truthy cmd.content_type then cmd.content_type else none
  let res := res0.getD {}
  let mimetype : Option String :=
    if truthy mimetype0 then mimetype0
    else
      match res0 with
      | some r => r.get_header "Content-type"
      | none => none
  let disposition : Option String :=
    match res0 with
    | some r => r.get_header "Content-disposition"
    | none => none
  let res :=
    if truthy mimetype = false ∨ mimetype = some "__MAGIC__" then
      let mt := ext.sniff filename
      let mt := if mt = "image/svg" then mt ++ "+xml" else mt
      if mt ≠ "" then res.add_header "Content-type" mt else res
    else
      let mt := lowerStr (pyOr mimetype "")
      if strStartsWith mt "text/" ∧ truthy cmd.charset ∧ containsSub mt "charset" = false then
        res.add_header "Content-type" (mt ++ "; charset=" ++ pyOr cmd.charset "")
      else res.add_header "Content-type" mt
  let res :=
    match disposition with
    | some dsp =>
      if dsp ≠ "" ∧ ext.dispositionAttachmentSafe dsp then
        res.add_header "Content-disposition" (ext.buildHeader (basenameStr filename))
      else res
    | none => res
  res.add_header "Last-Modified" (ext.fmtTime (fs.mtimeInt filename))

/-- The argument handed to parse_date:
    if_modified.split(';')[0].strip(). -/
def imsKey (ims : String) : String :=
  stripWS ((splitOnChar ';' ims).headD "")

/-- The If-Modified-Since test of static_file.  Python 2 compares
    None >= int(mtime) as False, so an unparsable date falls through to
    serving the file. -/
def imsCond (ext : ExtEnv) (mtime : Int) (ifModified : Option String) : Bool :=
  if truthy ifModified then
    match ext.parse_date (imsKey (pyOr ifModified "")) with
    | some t => decide (mtime ≤ t)
    | none => false
  else false

/-- HttpReqHandler.static_file: the result (or raised HttpReqError) plus the
    filesystem events, in order. -/
def static_file (fs : FS) (ext : ExtEnv) (cmd : Command) (method : String)
    (headers : String → Option String) (urlpath : String)
    (res0 : Option Resp) : Except HErr Resp × List Event :=
  let root := staticRoot cmd
  let filename := resolvedStaticPath cmd urlpath
  if strStartsWith filename root = false then
    (.error (.req 403), [])
  else if fs.fexists filename = false ∨ fs.isfile filename = false then
    (.error (.req 404), [.fsExists filename])
  else if fs.readable filename = false then
    (.error (.req 403), [.fsExists filename, .fsAccess filename])
  else
    let res := staticHeaders fs ext cmd res0 filename
    let evs := [Event.fsExists filename, .fsAccess filename, .fsStat filename]
    if imsCond ext (fs.mtimeInt filename) (headers "If-Modified-Since") then
      (.ok ((res.set_code 304).set_send_body false), evs)
    else if method ≠ "HEAD" then
      (.ok ((res.set_code 200).add_data (fs.content filename)), evs ++ [.fsRead filename])
    else
      (.ok ((res.set_code 200).add_data ""), evs)

/-! ### Command resolution (exact table, then patterns) -/

/-- Stable insertion into a list sorted by descending key length
    (models sorted(_RCMD, key=len, reverse=True)). -/
def insertDescBy (x : String × Command) :
    List (String × Command) → List (String × Command)
  | [] => [x]
  | y :: t => if y.1.length ≤ x.1.length then x :: y :: t else y :: insertDescBy x t

def sortKeysDesc (l : List (String × Command)) : List (String × Command) :=
  l.foldr insertDescBy []

/-- The order used by sorted(_RCMD, key=len, reverse=True): keys of earlier
    entries are at least as long as keys of later ones. -/
def lenGE (a b : String × Command) : Prop := b.1.length ≤ a.1.length

/-- The pattern scan of data_from_query / data_from_payload: keys starting
    with "METHOD ", first whose pattern matches the path. -/
def findPattern (method cmd : String) :
    List (String × Command) → Option (Command × List (String × Option String))
  | [] => none
  | (key, c) :: t =>
    if strStartsWith key (method ++ " ") then
      match c.mtch cmd with
      | some gd => some (c, gd)
      | none => findPattern method cmd t
    else findPattern method cmd t

/-- self._query_params.update(m.groupdict()) -/
def mergeGroups (qp : List (QKey × QVal)) (gd : List (String × Option String)) :
    List (QKey × QVal) :=
  gd.foldl (fun d p => dinsert (.s p.1) (.v p.2) d) qp

/-- The command-resolution prefix shared by data_from_query and
    data_from_payload: exact match in _NCMD on "METHOD /path" first, then the
    patterns of _RCMD by descending key length, merging the named capture
    groups into the query parameters. -/
def resolveCmdQ (ncmd rcmd : List (String × Command)) (method cmd : String)
    (qp : List (QKey × QVal)) : Option Command × List (QKey × QVal) :=
  match lookupA (method ++ " /" ++ cmd) ncmd with
  | some c => (some c, qp)
  | none =>
    match findPattern method cmd (sortKeysDesc rcmd) with
    | some (c, gd) => (some c, mergeGroups qp gd)
    | none => (none, qp)

/-! ### The per-request dispatch callbacks -/

/-- The module-level state and per-class configuration the dispatcher uses. -/
structure Env where
  authGate : Option AuthState := none          -- _AUTH
  authEnv : AuthEnv
  fs : FS
  ext : ExtEnv
  max_body_size : Int := 1048576               -- _OPTIONS['max_body_size']
  ncmd : List (String × Command) := []         -- _NCMD
  rcmd : List (String × Command) := []         -- _RCMD
  allowedContentTypes : List String := []      -- _ALLOWED_CONTENT_TYPES
  allowMultipart : Bool := true                -- _ALLOWED_MULTIPART_FORM

/-- One parsed incoming request. -/
structure Req where
  method : String
  headers : String → Option String
  queryParams : List (QKey × QVal) := []
  bodyBytes : String := ""

/-- What execute(cmd) hands back to common_req: the raw response_dumps text
    or an HttpResponse. -/
inductive DOut where
  | text (s : String)
  | resp (r : Resp)
deriving DecidableEq

/-- HttpReqHandler.data_from_query (DELETE/GET/HEAD requests). -/
def data_from_query (env : Env) (req : Req) (cmd : String) :
    Except HErr DOut × List Event :=
  let rq := resolveCmdQ env.ncmd env.rcmd req.method cmd req.queryParams
  match rq.1 with
  | none => (.error (.req 404), [])
  | some c =>
    let charset := pyOr c.charset DEFAULT_CHARSET
    match (if c.to_auth then
             authenticate env.authEnv env.authGate req.headers c.auth_users
           else .ok env.authGate) with
    | .error e => (.error e, [])
    | .ok _ =>
      if c.static then
        match c.handler? with
        | some h =>
          let res0 := match h rq.2 with
                      | .resp r => some r
                      | .val _ => none
          let sf := static_file env.fs env.ext c req.method req.headers cmd res0
          (sf.1.map DOut.resp, .handlerCall :: sf.2)
        | none =>
          let sf := static_file env.fs env.ext c req.method req.headers cmd none
          (sf.1.map DOut.resp, sf.2)
      else
        match c.handler? with
        | some h =>
          match h rq.2 with
          | .resp r => (.ok (.resp r), [.handlerCall])
          | .val v => (.ok (.text (response_dumps v charset)), [.handlerCall])
        | none => (.error .exn, [])

/-- HttpReqHandler.data_from_payload (PATCH/POST/PUT requests). -/
def data_from_payload (env : Env) (req : Req) (cmd : String) :
    Except HErr DOut × List Event :=
  let rq := resolveCmdQ env.ncmd env.rcmd req.method cmd req.queryParams
  match rq.1 with
  | none => (.error (.req 404), [])
  | some c =>
    let charset := pyOr c.charset DEFAULT_CHARSET
    let tenc := req.headers "Transfer-Encoding"
    if truthy tenc ∧ lowerStr (pyOr tenc "") ≠ "identity" then
      (.error (.req 501), [])
    else
      let ctype : Option String :=
        match req.headers "Content-Type" with
        | some s => if s = "" then some s
                    else some ((splitOnChar ';' (lowerStr s)).headD "")
        | none => none
      let ctErr : Bool :=
        match ctype with
        | some ct =>
          if ct = "" then false
          else if ct = "multipart/form-data" then env.allowMultipart = false
          else decide (env.allowedContentTypes ≠ [] ∧ ct ∉ env.allowedContentTypes)
        | none => false
      if ctErr then (.error (.req 501), [])
      else
        -- clen = int(self.headers.get('Content-Length') or 0): a missing or
        -- empty header becomes 0; only a present non-numeric string raises
        let clenE : Except Unit Int :=
          match req.headers "Content-Length" with
          | none => .ok 0
          | some s => if s = "" then .ok 0
                      else match pyInt s with
                           | some n => .ok n
                           | none => .error ()
        match clenE with
        | .error _ => (.error (.req 411), [])
        | .ok clen =>
          if clen < 0 then (.error (.req 411), [])
          else if clen > env.max_body_size then (.error (.req 413), [])
          else
            match (if c.to_auth then
                     authenticate env.authEnv env.authGate req.headers c.auth_users
                   else .ok env.authGate) with
            | .error e => (.error e, [])
            | .ok _ =>
              let evs := if clen > 0 then [Event.bodyRead clen] else []
              let parseErr : Bool :=
                if clen > 0 then
                  if ctype = some "multipart/form-data" then
                    env.ext.multipartOk req.bodyBytes = false
                  else
                    env.ext.parseQslOk charset req.bodyBytes = false
                else false
              if parseErr then (.error (.req 415), evs)
              else
                match c.handler? with
                | some h =>
                  match h rq.2 with
                  | .resp r => (.ok (.resp r), evs ++ [.handlerCall])
                  | .val v => (.ok (.text (response_dumps v charset)), evs ++ [.handlerCall])
                | none => (.error .exn, evs)

/-- The status code common_req ends up sending for a given execute result:
    a non-HttpResponse result is wrapped in a 200 response, an HttpReqError
    reports its own code, and any other exception is rendered as 500. -/
def common_reqCode : Except HErr DOut → Nat
  | .ok (.resp r) => r.code
  | .ok (.text _) => 200
  | .error (.req c) => c
  | .error .exn => 500

/-! ### register -/

def _METHODS : List String := ["HEAD", "GET", "DELETE", "PATCH", "POST", "PUT"]

def upperStr (s : String) : String := String.mk (s.data.map Char.toUpper)

/-- The registry key for one method: "METHOD key" for a pattern,
    "METHOD /key" for a literal name. -/
def regKey (isReg : Bool) (key method : String) : String :=
  if isReg then method ++ " " ++ key else method ++ " /" ++ key

/-- The key-insertion loop of register (`for method in methods:`): duplicate
    check, then insertion into _COMMANDS.  Returns the updated key list and
    whether the duplicate-registration ValueError was raised; as in the
    source, insertions made before the raise persist. -/
def registerLoop (isReg : Bool) (key : String) :
    List String → List String → List String × Bool
  | commands, [] => (commands, false)
  | commands, method :: rest =>
    let mkey := regKey isReg key method
    if mkey ∈ commands then (commands, true)
    else registerLoop isReg key (commands ++ [mkey]) rest

/-- register, projected onto the registry keys: the method/static/root
    validations (all of which raise before any registry mutation, so they
    are collapsed into one flag) followed by the insertion loop. -/
def register (commands : List String) (isReg : Bool) (key : String)
    (static : Bool) (root : Option String) (op : List String) :
    List String × Bool :=
  let ms := op.map upperStr
  if (ms.all fun x => decide (x ∈ _METHODS)) = false then (commands, true)
  else if static ∧ (ms.all fun x => x == "GET" || x == "HEAD") = false then
    (commands, true)
  else if ms = [] then (commands, true)
  else if static ∧ truthy root = false then (commands, true)
  else registerLoop isReg key commands ms

/-! ### Concrete fixtures used to instantiate the theorems -/

/-- A filesystem with no files. -/
def fsEmpty : FS :=
  { fexists := fun _ => false, isfile := fun _ => false,
    readable := fun _ => false, mtimeInt := fun _ => 0, content := fun _ => "" }

/-- A filesystem holding exactly /www/a.txt (mtime 100, contents "hello"). -/
def fsWww : FS :=
  { fexists := fun p => p == "/www/a.txt", isfile := fun p => p == "/www/a.txt",
    readable := fun p => p == "/www/a.txt", mtimeInt := fun _ => 100,
    content := fun _ => "hello" }

/-- External oracles whose date parser always fails. -/
def extTriv : ExtEnv :=
  { sniff := fun _ => "text/plain", fmtTime := fun t => toString t,
    dispositionAttachmentSafe := fun _ => false, buildHeader := fun s => s,
    parse_date := fun _ => none, multipartOk := fun _ => true,
    parseQslOk := fun _ _ => true }

/-- External oracles whose date parser always yields 200. -/
def extPd200 : ExtEnv := { extTriv with parse_date := fun _ => some 200 }

/-- A static GET command rooted at /srv/www. -/
def cmdSrv : Command := { static := true, root := "/srv/www" }

/-- A static GET command rooted at /www. -/
def cmdWww : Command := { static := true, root := "/www" }

/-- Request headers carrying only If-Modified-Since. -/
def hdrsIms (v : String) : String → Option String :=
  fun h => if h = "If-Modified-Since" then some v else none

/-- The 200 response built by static_file for /www/a.txt with the trivial
    oracles. -/
def respWwwServed : Resp :=
  ((staticHeaders fsWww extTriv cmdWww none "/www/a.txt").set_code 200).add_data "hello"

/-- Auth oracles that never succeed at decoding. -/
def authEnvTriv : AuthEnv :=
  { b64decode := fun _ => none, cryptFn := fun _ _ => "", sha1b64 := fun _ => "" }

/-- Auth oracles with one decodable token "QQ==" ↦ "user:wrong" and a
    prefix-tagging crypt. -/
def authEnvB64 : AuthEnv :=
  { b64decode := fun s => if s = "QQ==" then some "user:wrong" else none,
    cryptFn := fun p _ => "C" ++ p, sha1b64 := fun _ => "" }

/-- A fresh gate (no request recorded yet) with one crypt-style user. -/
def gateFresh : AuthState := { users := [("user", "Cpass")] }

/-- A plain command whose handler returns the string "ok". -/
def handlerOk : Command := { handler? := some (fun _ => .val (.pystr "ok")) }

/-- An auth-requiring command whose handler returns the string "pong". -/
def cmdPingAuth : Command :=
  { handler? := some (fun _ => .val (.pystr "pong")), to_auth := true }

/-- Environment with one PUT route. -/
def envPut : Env :=
  { authEnv := authEnvTriv, fs := fsEmpty, ext := extTriv,
    ncmd := [("PUT /up", handlerOk)] }

/-- Environment with a credential store and one auth-requiring GET route. -/
def envAuthReq : Env :=
  { authGate := some gateFresh, authEnv := authEnvTriv, fs := fsEmpty,
    ext := extTriv, ncmd := [("GET /ping", cmdPingAuth)] }

/-- envAuthReq with the decodable-token auth oracles. -/
def envAuthBasic : Env := { envAuthReq with authEnv := authEnvB64 }

/-- A PUT request carrying a non-numeric Content-Length. -/
def reqPutBadCl : Req :=
  { method := "PUT",
    headers := fun h => if h = "Content-Length" then some "abc" else none }

/-- A PUT request with no headers at all (no Content-Length). -/
def reqPutNoCl : Req := { method := "PUT", headers := fun _ => none }

/-- A GET request with a non-Basic Authorization header. -/
def reqBearer : Req :=
  { method := "GET",
    headers := fun h => if h = "Authorization" then some "Bearer xyz" else none }

/-- A GET request with a decodable Basic header carrying a wrong password. -/
def reqBasicBad : Req :=
  { method := "GET",
    headers := fun h => if h = "Authorization" then some "Basic QQ==" else none }

/-- A literal route command. -/
def cmdLit : Command := { handler? := some (fun _ => .val (.pystr "lit")) }

/-- A long-keyed pattern command matching every path with group id. -/
def cmdPatL : Command :=
  { isPattern := true, mtch := fun _ => some [("id", some "L")] }

/-- A short-keyed pattern command matching every path with group n. -/
def cmdPatS : Command :=
  { isPattern := true, mtch := fun _ => some [("n", some "S")] }

/-- Exact-route table with one literal entry. -/
def ncmdW : List (String × Command) := [("GET /item/all", cmdLit)]

/-- Pattern-route table, the shorter key listed first. -/
def rcmdW : List (String × Command) :=
  [("GET it", cmdPatS), ("GET itemlong", cmdPatL)]

/-- A response on which the caller set a Content-type header. -/
def respCt : Resp := { headers := [("Content-type", "text/x")] }

/-! ## Theorems about the claims -/

/-- Claim C8: for every handler return value that is not a structured
    Response, response_dumps renders True as "1" and False as "0", None as
    the empty string, any other scalar as its string form, and any other
    object as its str() form when its class defines one, otherwise its
    repr() form. -/
theorem response_dumps_rendering :
    (∀ charset, response_dumps (.pybool true) charset = "1"
      ∧ response_dumps (.pybool false) charset = "0")
    ∧ (∀ charset, response_dumps .pynone charset = "")
    ∧ (∀ n charset, response_dumps (.pyint n) charset = toString n)
    ∧ (∀ s charset, response_dumps (.pystr s) charset = s)
    ∧ (∀ s r charset, response_dumps (.pyobj true s r) charset = s)
    ∧ (∀ s r charset, response_dumps (.pyobj false s r) charset = r) := by
  refine ⟨fun _ => ⟨rfl, rfl⟩, fun _ => rfl, ?_, ?_, ?_, ?_⟩ <;>
    intros <;> simp [response_dumps, is_scalar, pyStrFormat, pyRepr]

/-- Claim C4 (amended): decoding [("a[]","x"),("a[]","y")] appends under the
    integer keys 0 and 1 — each empty segment takes the lowest non-negative
    integer not yet used as an integer key at that nesting level. -/
theorem querylist_append_int_keys :
    querylist_to_dict [("a[]", some "x"), ("a[]", some "y")]
      = [(QKey.s "a", QVal.d [(QKey.i 0, QVal.v (some "x")),
                              (QKey.i 1, QVal.v (some "y"))])] := rfl

/-- Claim C4 counterexample: the decoded mapping is not the string-keyed
    mapping {"a": {"0": "x", "1": "y"}} the claim states — the inner keys
    are Python ints, not the strings "0" and "1". -/
theorem querylist_append_not_string_keys :
    querylist_to_dict [("a[]", some "x"), ("a[]", some "y")]
      ≠ [(QKey.s "a", QVal.d [(QKey.s "0", QVal.v (some "x")),
                              (QKey.s "1", QVal.v (some "y"))])] := by
  intro h
  rw [show querylist_to_dict [("a[]", some "x"), ("a[]", some "y")]
        = [(QKey.s "a", QVal.d [(QKey.i 0, QVal.v (some "x")),
                                (QKey.i 1, QVal.v (some "y"))])] from rfl] at h
  simp at h

lemma upperStr_methods : ∀ m ∈ _METHODS, upperStr m = m := by decide

/-- Claim C9: registering a command for methods [m1, m2] where m1's key is
    free but m2's key is already registered raises the duplicate-registration
    error, yet m1's entry stays inserted in the registry. -/
theorem register_partial_insert (commands : List String) (isReg : Bool)
    (key m1 m2 : String) (hm1 : m1 ∈ _METHODS) (hm2 : m2 ∈ _METHODS)
    (hfree : regKey isReg key m1 ∉ commands)
    (hdup : regKey isReg key m2 ∈ commands) :
    (register commands isReg key false none [m1, m2]).2 = true
    ∧ regKey isReg key m1 ∈ (register commands isReg key false none [m1, m2]).1 := by
  have e1 : upperStr m1 = m1 := upperStr_methods m1 hm1
  have e2 : upperStr m2 = m2 := upperStr_methods m2 hm2
  have hloop : registerLoop isReg key commands [m1, m2]
      = (commands ++ [regKey isReg key m1], true) := by
    simp only [registerLoop]
    rw [if_neg hfree, if_pos (List.mem_append_left _ hdup)]
  have hreg : register commands isReg key false none [m1, m2]
      = (commands ++ [regKey isReg key m1], true) := by
    simp only [register, List.map, e1, e2]
    rw [if_neg (by simp [hm1, hm2]), if_neg (by simp), if_neg (by simp),
        if_neg (by simp)]
    exact hloop
  rw [hreg]
  exact ⟨rfl, List.mem_append_right _ (by simp)⟩

/-- Witness for register_partial_insert at a concrete registry. -/
theorem register_partial_insert_witness :
    (register ["POST /x"] false "x" false none ["GET", "POST"]).2 = true
    ∧ regKey false "x" "GET" ∈ (register ["POST /x"] false "x" false none ["GET", "POST"]).1 :=
  register_partial_insert ["POST /x"] false "x" "GET" "POST" (by decide) (by decide)
    (by decide) (by decide)

/-- Claim C2: a static request whose resolved absolute file path does not lie
    under the absolute root (string-prefix containment) yields 403 with an
    empty event list — no filesystem existence check and no read happen,
    whatever the filesystem contains. -/
theorem static_escape_403 (fs : FS) (ext : ExtEnv) (cmd : Command)
    (method : String) (headers : String → Option String) (urlpath : String)
    (res0 : Option Resp)
    (h : strStartsWith (resolvedStaticPath cmd urlpath) (staticRoot cmd) = false) :
    static_file fs ext cmd method headers urlpath res0 = (.error (.req 403), []) := by
  simp [static_file, h]

/-- Witness: ../../etc/passwd against root /srv/www resolves to /etc/passwd,
    outside the root, and yields 403 without touching the filesystem. -/
theorem static_escape_403_witness :
    static_file fsEmpty extTriv cmdSrv "GET" (fun _ => none) "../../etc/passwd" none
      = (.error (.req 403), []) :=
  static_escape_403 fsEmpty extTriv cmdSrv "GET" (fun _ => none) "../../etc/passwd"
    none (by decide)

/-- Claim C6: a static request for a readable file whose If-Modified-Since
    header parses to a timestamp ≥ the file mtime gets a 304 response with
    send_body cleared, and end_response writes zero body bytes for it. -/
theorem static_if_modified_304 (fs : FS) (ext : ExtEnv) (cmd : Command)
    (method : String) (headers : String → Option String) (urlpath : String)
    (res0 : Option Resp) (ims : String) (t : Int)
    (hpre : strStartsWith (resolvedStaticPath cmd urlpath) (staticRoot cmd) = true)
    (hex : fs.fexists (resolvedStaticPath cmd urlpath) = true)
    (hisf : fs.isfile (resolvedStaticPath cmd urlpath) = true)
    (hrd : fs.readable (resolvedStaticPath cmd urlpath) = true)
    (hhdr : headers "If-Modified-Since" = some ims) (hne : ims ≠ "")
    (hpd : ext.parse_date (imsKey ims) = some t)
    (hge : fs.mtimeInt (resolvedStaticPath cmd urlpath) ≤ t) :
    ∃ r, (static_file fs ext cmd method headers urlpath res0).1 = .ok r
      ∧ r.code = 304 ∧ r.send_body = false
      ∧ (∀ ctx, (end_response ctx r).2 = "") := by
  have hc : imsCond ext (fs.mtimeInt (resolvedStaticPath cmd urlpath))
      (headers "If-Modified-Since") = true := by
    rw [hhdr]
    simp [imsCond, truthy, hne, pyOr, hpd, hge]
  refine ⟨((staticHeaders fs ext cmd res0 (resolvedStaticPath cmd urlpath)).set_code
            304).set_send_body false, ?_, rfl, rfl, ?_⟩
  · simp [static_file, hpre, hex, hisf, hrd, hc]
  · intro ctx
    simp [end_response, responseBodyClen, Resp.set_send_body, Resp.set_code]

/-- Witness for static_if_modified_304: /www/a.txt with mtime 100 and a
    header parsing to 200 yields 304 and an empty rendered body. -/
theorem static_if_modified_304_witness :
    ∃ r, (static_file fsWww extPd200 cmdWww "GET" (hdrsIms "X") "a.txt" none).1 = .ok r
      ∧ r.code = 304 ∧ r.send_body = false
      ∧ (∀ ctx, (end_response ctx r).2 = "") :=
  static_if_modified_304 fsWww extPd200 cmdWww "GET" (hdrsIms "X") "a.txt" none "X" 200
    (by decide) (by decide) (by decide) (by decide) (by decide) (by decide)
    (by decide) (by decide)

/-- Claim C10 (amended): when parse_date cannot parse the If-Modified-Since
    header it returns None, and under Python 2 the comparison
    None >= int(mtime) is False, so the header is ignored and the file is
    served normally — 200 with the file contents and a filesystem read,
    neither 304 nor an exception. -/
theorem static_unparsable_ims_serves (fs : FS) (ext : ExtEnv) (cmd : Command)
    (method : String) (headers : String → Option String) (urlpath : String)
    (res0 : Option Resp) (ims : String)
    (hm : method ≠ "HEAD")
    (hpre : strStartsWith (resolvedStaticPath cmd urlpath) (staticRoot cmd) = true)
    (hex : fs.fexists (resolvedStaticPath cmd urlpath) = true)
    (hisf : fs.isfile (resolvedStaticPath cmd urlpath) = true)
    (hrd : fs.readable (resolvedStaticPath cmd urlpath) = true)
    (hhdr : headers "If-Modified-Since" = some ims) (hne : ims ≠ "")
    (hpd : ext.parse_date (imsKey ims) = none) :
    ∃ r, static_file fs ext cmd method headers urlpath res0
        = (.ok r, [.fsExists (resolvedStaticPath cmd urlpath),
                   .fsAccess (resolvedStaticPath cmd urlpath),
                   .fsStat (resolvedStaticPath cmd urlpath),
                   .fsRead (resolvedStaticPath cmd urlpath)])
      ∧ r.code = 200 ∧ r.data = fs.content (resolvedStaticPath cmd urlpath) := by
  have hc : imsCond ext (fs.mtimeInt (resolvedStaticPath cmd urlpath))
      (headers "If-Modified-Since") = false := by
    rw [hhdr]
    simp [imsCond, truthy, hne, pyOr, hpd]
  refine ⟨((staticHeaders fs ext cmd res0 (resolvedStaticPath cmd urlpath)).set_code
            200).add_data (fs.content (resolvedStaticPath cmd urlpath)), ?_, rfl, rfl⟩
  simp [static_file, hpre, hex, hisf, hrd, hc, hm]

/-- Witness for static_unparsable_ims_serves: /www/a.txt requested with an
    unparsable date header is served. -/
theorem static_unparsable_ims_serves_witness :
    ∃ r, static_file fsWww extTriv cmdWww "GET" (hdrsIms "garbage") "a.txt" none
        = (.ok r, [.fsExists (resolvedStaticPath cmdWww "a.txt"),
                   .fsAccess (resolvedStaticPath cmdWww "a.txt"),
                   .fsStat (resolvedStaticPath cmdWww "a.txt"),
                   .fsRead (resolvedStaticPath cmdWww "a.txt")])
      ∧ r.code = 200
      ∧ r.data = fsWww.content (resolvedStaticPath cmdWww "a.txt") :=
  static_unparsable_ims_serves fsWww extTriv cmdWww "GET" (hdrsIms "garbage")
    "a.txt" none "garbage" (by decide) (by decide) (by decide) (by decide)
    (by decide) rfl (by decide) rfl

/-- Claim C10 counterexample: an existing readable file requested with an
    unparsable If-Modified-Since date is served with 200 and its contents —
    the request does not produce a 500 error response. -/
theorem static_unparsable_ims_not_500 :
    extTriv.parse_date "garbage" = none
    ∧ static_file fsWww extTriv cmdWww "GET" (hdrsIms "garbage") "a.txt" none
        = (.ok respWwwServed,
           [.fsExists "/www/a.txt", .fsAccess "/www/a.txt",
            .fsStat "/www/a.txt", .fsRead "/www/a.txt"])
    ∧ respWwwServed.code = 200 ∧ respWwwServed.code ≠ 500
    ∧ respWwwServed.code ≠ 304 := by
  refine ⟨rfl, rfl, rfl, by decide, by decide⟩

/-- Claim C3 (amended): for PATCH/POST/PUT, a present non-numeric
    Content-Length and a negative one yield 411, and a valid one above
    max_body_size yields 413, each with an empty event list — the body is
    not read and the handler is not invoked.  (A missing or empty header is
    NOT rejected: int(headers.get(..) or 0) makes it 0.) -/
theorem payload_length_rejections (env : Env) (req : Req) (cmdStr : String)
    (c : Command)
    (hres : (resolveCmdQ env.ncmd env.rcmd req.method cmdStr req.queryParams).1 = some c)
    (htenc : truthy (req.headers "Transfer-Encoding") = false)
    (hct : req.headers "Content-Type" = none) :
    (∀ s, req.headers "Content-Length" = some s → s ≠ "" → pyInt s = none →
        data_from_payload env req cmdStr = (.error (.req 411), []))
    ∧ (∀ s n, req.headers "Content-Length" = some s → s ≠ "" → pyInt s = some n →
        n < 0 → data_from_payload env req cmdStr = (.error (.req 411), []))
    ∧ (∀ s n, req.headers "Content-Length" = some s → s ≠ "" → pyInt s = some n →
        ¬ n < 0 → env.max_body_size < n →
        data_from_payload env req cmdStr = (.error (.req 413), [])) := by
  refine ⟨?_, ?_, ?_⟩ <;> intros <;>
    simp [data_from_payload, hres, htenc, hct, *]

/-- Witness for payload_length_rejections: PUT with Content-Length "abc". -/
theorem payload_length_rejections_witness :
    data_from_payload envPut reqPutBadCl "up" = (.error (.req 411), []) :=
  (payload_length_rejections envPut reqPutBadCl "up" handlerOk rfl rfl rfl).1
    "abc" rfl (by decide) rfl

/-- Claim C3 counterexample: a PUT with NO Content-Length header is not
    rejected with 411 — the length is taken as 0 and the handler runs. -/
theorem payload_missing_cl_invokes_handler :
    data_from_payload envPut reqPutNoCl "up" = (.ok (.text "ok"), [.handlerCall])
    ∧ data_from_payload envPut reqPutNoCl "up" ≠ (.error (.req 411), []) := by
  refine ⟨rfl, ?_⟩
  intro h
  rw [show data_from_payload envPut reqPutNoCl "up"
        = (.ok (.text "ok"), [.handlerCall]) from rfl] at h
  simp at h

lemma authenticate_fail_401 (env : AuthEnv) (st st' : AuthState)
    (hdrs : String → Option String) (auth_users : List String) (a u p : String)
    (hhdr : hdrs "Authorization" = some a) (hne : a ≠ "")
    (hval : valid_authorization env st a = .ok (false, st'))
    (huser : st'.user = some u) (hpass : st'.passwd = some p) :
    authenticate env (some st) hdrs auth_users = .error (.req 401) := by
  simp only [authenticate, hhdr, hval, huser, hpass]
  rw [if_neg hne]
  split <;> simp

/-- Claim C1 (amended): with a credential store configured, an auth-required
    command, and an Authorization header on which valid_authorization fails
    AFTER recording a user and password (as happens for any decodable Basic
    header), the dispatcher answers 401 and the handler is not invoked. -/
theorem auth_failed_basic_401 (env : Env) (req : Req) (cmdStr : String)
    (c : Command) (st st' : AuthState) (a u p : String)
    (hres : (resolveCmdQ env.ncmd env.rcmd req.method cmdStr req.queryParams).1 = some c)
    (hta : c.to_auth = true)
    (hgate : env.authGate = some st)
    (hhdr : req.headers "Authorization" = some a) (hne : a ≠ "")
    (hval : valid_authorization env.authEnv st a = .ok (false, st'))
    (huser : st'.user = some u) (hpass : st'.passwd = some p) :
    data_from_query env req cmdStr = (.error (.req 401), [])
    ∧ common_reqCode (data_from_query env req cmdStr).1 = 401 := by
  have hau := authenticate_fail_401 env.authEnv st st' req.headers c.auth_users
    a u p hhdr hne hval huser hpass
  have h1 : data_from_query env req cmdStr = (.error (.req 401), []) := by
    simp [data_from_query, hres, hta, hgate, hau]
  exact ⟨h1, by rw [h1]; rfl⟩

/-- Witness for auth_failed_basic_401: a Basic header decoding to
    user:wrong against the crypt secret Cpass yields 401, no handler call. -/
theorem auth_failed_basic_401_witness :
    data_from_query envAuthBasic reqBasicBad "ping" = (.error (.req 401), [])
    ∧ common_reqCode (data_from_query envAuthBasic reqBasicBad "ping").1 = 401 :=
  auth_failed_basic_401 envAuthBasic reqBasicBad "ping" cmdPingAuth gateFresh
    { users := [("user", "Cpass")], user := some "user", passwd := some "wrong" }
    "Basic QQ==" "user" "wrong" rfl rfl rfl rfl (by decide) rfl rfl rfl

/-- Claim C1 counterexample: with a credential store configured and an
    Authorization header on which valid_authorization returns false (a
    non-Basic scheme, recording no user/password on the fresh gate), the
    dispatcher does NOT answer 401 — the handler runs and 200 is sent. -/
theorem auth_nonbasic_passthrough :
    valid_authorization authEnvTriv gateFresh "Bearer xyz" = .ok (false, gateFresh)
    ∧ data_from_query envAuthReq reqBearer "ping" = (.ok (.text "pong"), [.handlerCall])
    ∧ common_reqCode (data_from_query envAuthReq reqBearer "ping").1 = 200 :=
  ⟨rfl, rfl, rfl⟩

/-! ### Sorting lemmas for the pattern scan -/

lemma mem_insertDescBy (x a : String × Command) :
    ∀ l, a ∈ insertDescBy x l ↔ a = x ∨ a ∈ l := by
  intro l
  induction l with
  | nil => simp [insertDescBy]
  | cons y t ih =>
    simp only [insertDescBy]
    split
    · simp [List.mem_cons]
    · simp only [List.mem_cons, ih]
      tauto

lemma pairwise_insertDescBy (x : String × Command) :
    ∀ l, l.Pairwise lenGE → (insertDescBy x l).Pairwise lenGE := by
  intro l
  induction l with
  | nil => intro _; simp [insertDescBy, lenGE]
  | cons y t ih =>
    intro hp
    simp only [insertDescBy]
    split
    · refine List.Pairwise.cons ?_ hp
      intro z hz
      rcases List.mem_cons.mp hz with hzy | hzt
      · subst hzy; assumption
      · exact le_trans ((List.pairwise_cons.mp hp).1 z hzt) (by assumption)
    · rename_i hyx
      have hx : x.1.length ≤ y.1.length := le_of_lt (Nat.not_le.mp hyx)
      refine List.Pairwise.cons ?_ (ih (List.pairwise_cons.mp hp).2)
      intro z hz
      rcases (mem_insertDescBy x z t).mp hz with hzx | hzt
      · subst hzx; exact hx
      · exact (List.pairwise_cons.mp hp).1 z hzt

lemma mem_sortKeysDesc (a : String × Command) :
    ∀ l, a ∈ sortKeysDesc l ↔ a ∈ l := by
  intro l
  induction l with
  | nil => simp [sortKeysDesc]
  | cons y t ih =>
    show a ∈ insertDescBy y (sortKeysDesc t) ↔ _
    rw [mem_insertDescBy, ih]
    simp [List.mem_cons]

lemma pairwise_sortKeysDesc : ∀ l, (sortKeysDesc l).Pairwise lenGE := by
  intro l
  induction l with
  | nil => simp [sortKeysDesc]
  | cons y t ih => exact pairwise_insertDescBy y (sortKeysDesc t) ih

/-- In a length-descending list, if (k, c) is a matching entry and every
    other matching entry is strictly shorter, the scan returns (k, c)'s
    command with its groupdict. -/
lemma findPattern_first (method cmd : String) (k : String) (c : Command)
    (gd : List (String × Option String)) :
    ∀ l : List (String × Command),
      l.Pairwise lenGE →
      (k, c) ∈ l →
      strStartsWith k (method ++ " ") = true →
      c.mtch cmd = some gd →
      (∀ k' c', (k', c') ∈ l → strStartsWith k' (method ++ " ") = true →
        (c'.mtch cmd).isSome = true → (k' = k ∧ c' = c) ∨ k'.length < k.length) →
      findPattern method cmd l = some (c, gd) := by
  intro l
  induction l with
  | nil => intro _ hm; simp at hm
  | cons hd t ih =>
    intro hp hm hpre hmtch hbest
    obtain ⟨k0, c0⟩ := hd
    by_cases h1 : strStartsWith k0 (method ++ " ") = true
    · cases hmt : c0.mtch cmd with
      | some g0 =>
        have hh := hbest k0 c0 (List.mem_cons_self _ _) h1 (by rw [hmt]; rfl)
        rcases hh with ⟨hk, hc⟩ | hlt
        · subst hk
          subst hc
          rw [hmtch] at hmt
          injection hmt with hg
          subst hg
          unfold findPattern
          rw [if_pos h1, hmtch]
        · exfalso
          rcases List.mem_cons.mp hm with heq | hmem
          · have hk0 : k = k0 := congrArg Prod.fst heq
            rw [hk0] at hlt
            omega
          · have hle := (List.pairwise_cons.mp hp).1 (k, c) hmem
            simp only [lenGE] at hle
            omega
      | none =>
        have hm' : (k, c) ∈ t := by
          rcases List.mem_cons.mp hm with heq | hmem
          · exfalso
            have hc0 : c = c0 := congrArg Prod.snd heq
            rw [hc0, hmt] at hmtch
            exact Option.noConfusion hmtch
          · exact hmem
        unfold findPattern
        rw [if_pos h1, hmt]
        exact ih (List.pairwise_cons.mp hp).2 hm' hpre hmtch
          (fun k' c' hx => hbest k' c' (List.mem_cons_of_mem _ hx))
    · have hm' : (k, c) ∈ t := by
        rcases List.mem_cons.mp hm with heq | hmem
        · exfalso
          have hk0 : k = k0 := congrArg Prod.fst heq
          rw [hk0] at hpre
          exact h1 hpre
        · exact hmem
      unfold findPattern
      rw [if_neg h1]
      exact ih (List.pairwise_cons.mp hp).2 hm' hpre hmtch
        (fun k' c' hx => hbest k' c' (List.mem_cons_of_mem _ hx))

/-- Claim C5: command resolution consults the exact-match table first, so a
    literal route wins even when a pattern matches; only on a miss are the
    patterns scanned by descending key length, the strictly longest matching
    pattern winning, and its named capture groups are merged into the query
    parameters. -/
theorem route_resolution (ncmd rcmd : List (String × Command))
    (method cmd : String) (qp : List (QKey × QVal)) :
    (∀ c, lookupA (method ++ " /" ++ cmd) ncmd = some c →
        resolveCmdQ ncmd rcmd method cmd qp = (some c, qp))
    ∧ (∀ k c gd, lookupA (method ++ " /" ++ cmd) ncmd = none →
        (k, c) ∈ rcmd →
        strStartsWith k (method ++ " ") = true →
        c.mtch cmd = some gd →
        (∀ k' c', (k', c') ∈ rcmd → strStartsWith k' (method ++ " ") = true →
          (c'.mtch cmd).isSome = true → (k' = k ∧ c' = c) ∨ k'.length < k.length) →
        resolveCmdQ ncmd rcmd method cmd qp = (some c, mergeGroups qp gd)) := by
  constructor
  · intro c h
    simp [resolveCmdQ, h]
  · intro k c gd hn hm hpre hmtch hbest
    have hf := findPattern_first method cmd k c gd (sortKeysDesc rcmd)
      (pairwise_sortKeysDesc rcmd) ((mem_sortKeysDesc _ rcmd).mpr hm) hpre hmtch
      (fun k' c' hx => hbest k' c' ((mem_sortKeysDesc _ rcmd).mp hx))
    simp [resolveCmdQ, hn, hf]

/-- Witness for route_resolution: the literal /item/all wins over patterns
    that also match, and among two matching patterns the longer key
    "GET itemlong" beats "GET it" and merges its groupdict. -/
theorem route_resolution_witness :
    resolveCmdQ ncmdW rcmdW "GET" "item/all" [] = (some cmdLit, [])
    ∧ resolveCmdQ ncmdW rcmdW "GET" "other" []
        = (some cmdPatL, mergeGroups [] [("id", some "L")]) := by
  constructor
  · exact (route_resolution ncmdW rcmdW "GET" "item/all" []).1 cmdLit rfl
  · refine (route_resolution ncmdW rcmdW "GET" "other" []).2 "GET itemlong" cmdPatL
      [("id", some "L")] rfl (List.mem_cons_of_mem _ (List.mem_cons_self _ _))
      (by decide) rfl ?_
    intro k' c' hm' hpre hs
    rcases List.mem_cons.mp hm' with h | h
    · right
      have hk : k' = "GET it" := congrArg Prod.fst h
      rw [hk]
      decide
    · left
      rcases List.mem_cons.mp h with h2 | h2
      · exact ⟨congrArg Prod.fst h2, congrArg Prod.snd h2⟩
      · simp at h2

lemma mem_trailing (hk v : String) (r : Resp) (hmem : (hk, v) ∈ r.headers)
    (hexc : hk ∉ _END_EXC_HEADERS) : (hk, v) ∈ responseTrailingHeaders r := by
  unfold responseTrailingHeaders
  exact List.mem_filter.mpr ⟨hmem, by simp [hexc]⟩

lemma countHeaderCI_append (name : String) (a b : List (String × String)) :
    countHeaderCI name (a ++ b) = countHeaderCI name a + countHeaderCI name b := by
  simp [countHeaderCI]

lemma countHeaderCI_fixed (name : String) (ctx : SendCtx) (r : Resp) (clen : Nat)
    (h : ((["Server", "Date", "Cache-Control", "Pragma", "Connection",
            "Content-Type", "Content-Length"]).filter
            (fun k => lowerStr k = name)).length = 1) :
    countHeaderCI name (responseFixedHeaders ctx r clen) = 1 := by
  unfold countHeaderCI
  rw [show (responseFixedHeaders ctx r clen).map Prod.fst
        = ["Server", "Date", "Cache-Control", "Pragma", "Connection",
           "Content-Type", "Content-Length"] from rfl]
  exact h

lemma countHeaderCI_trailing (name hk v : String) (r : Resp)
    (hmem : (hk, v) ∈ r.headers) (hexc : hk ∉ _END_EXC_HEADERS)
    (hlow : lowerStr hk = name) :
    1 ≤ countHeaderCI name (responseTrailingHeaders r) := by
  have h1 := mem_trailing hk v r hmem hexc
  have h2 : hk ∈ (responseTrailingHeaders r).map Prod.fst :=
    List.mem_map_of_mem Prod.fst h1
  have h3 : hk ∈ ((responseTrailingHeaders r).map Prod.fst).filter
      (fun k => lowerStr k = name) :=
    List.mem_filter.mpr ⟨h2, by simp [hlow]⟩
  exact List.length_pos_of_mem h3

/-- Claim C7: the exclusion tuple fuses Content-type, Content-length and
    Pragma into the single token "Content-typeContent-lengthPragma", so the
    exclusion never matches those real header names: a caller-set
    Content-type, Content-length or Pragma header appears in the trailing
    loop after the fixed block, i.e. is emitted a second time. -/
theorem end_exc_fused_duplicate_headers :
    _END_EXC_HEADERS
      = ["Cache-control", "Connection", "Content-typeContent-lengthPragma",
         "Server"]
    ∧ (∀ ctx r v, ("Content-type", v) ∈ r.headers →
        ("Content-type", v) ∈ responseTrailingHeaders r
        ∧ 2 ≤ countHeaderCI "content-type" ((end_response ctx r).1))
    ∧ (∀ ctx r v, ("Content-length", v) ∈ r.headers →
        ("Content-length", v) ∈ responseTrailingHeaders r
        ∧ 2 ≤ countHeaderCI "content-length" ((end_response ctx r).1))
    ∧ (∀ ctx r v, ("Pragma", v) ∈ r.headers →
        ("Pragma", v) ∈ responseTrailingHeaders r
        ∧ 2 ≤ countHeaderCI "pragma" ((end_response ctx r).1)) := by
  refine ⟨rfl, ?_, ?_, ?_⟩
  · intro ctx r v hmem
    refine ⟨mem_trailing _ v r hmem (by decide), ?_⟩
    have he : (end_response ctx r).1
        = responseFixedHeaders ctx r (responseBodyClen ctx r).2
          ++ responseTrailingHeaders r := rfl
    rw [he, countHeaderCI_append,
        countHeaderCI_fixed "content-type" ctx r _ (by decide)]
    have ht := countHeaderCI_trailing "content-type" "Content-type" v r hmem
      (by decide) (by decide)
    omega
  · intro ctx r v hmem
    refine ⟨mem_trailing _ v r hmem (by decide), ?_⟩
    have he : (end_response ctx r).1
        = responseFixedHeaders ctx r (responseBodyClen ctx r).2
          ++ responseTrailingHeaders r := rfl
    rw [he, countHeaderCI_append,
        countHeaderCI_fixed "content-length" ctx r _ (by decide)]
    have ht := countHeaderCI_trailing "content-length" "Content-length" v r hmem
      (by decide) (by decide)
    omega
  · intro ctx r v hmem
    refine ⟨mem_trailing _ v r hmem (by decide), ?_⟩
    have he : (end_response ctx r).1
        = responseFixedHeaders ctx r (responseBodyClen ctx r).2
          ++ responseTrailingHeaders r := rfl
    rw [he, countHeaderCI_append,
        countHeaderCI_fixed "pragma" ctx r _ (by decide)]
    have ht := countHeaderCI_trailing "pragma" "Pragma" v r hmem
      (by decide) (by decide)
    omega

/-- Witness for end_exc_fused_duplicate_headers: a response with a
    caller-set Content-type header gets it emitted again after the fixed
    block. -/
theorem end_exc_fused_duplicate_headers_witness :
    ("Content-type", "text/x") ∈ responseTrailingHeaders respCt
    ∧ 2 ≤ countHeaderCI "content-type" ((end_response {} respCt).1) :=
  end_exc_fused_duplicate_headers.2.1 {} respCt "text/x" (by decide)

end Httpdis
